import Mathlib

/-!
Verification of the metric-derivation and comparison engine of the
channel-analytics dashboard (src/dashboard_508.py).

The pandas pipeline is shallowly embedded over lists of records.
Numeric columns hold exact integers (pandas int64 columns) and the
derived metrics are rationals; a column cell that may be missing (NaN
after pandas ingestion) is an `Option` value, with `none` playing the
role of NaN, so that the NaN comparison semantics of pandas (every
comparison with NaN is false) can be rendered faithfully.
-/

namespace Dashboard

/-- One row of the loaded table `df`.  Mirrors the columns used by the
metric engine.  `videos_last_30_days` is `Option ℤ` because the source
re-coerces that column (line 934) with `to_numeric/fillna/clip`,
so before that point it may hold a missing value (`none` = NaN). -/
structure Record where
  channel_name : String
  category : String
  country : String
  subscriber_count : ℤ
  view_count : ℤ
  video_count : ℤ
  views_last_30_days : ℤ
  videos_last_30_days : Option ℤ
  channel_age_years : ℚ
deriving DecidableEq, Repr

/-- `growth_boost_score` from the source:
`s = r.subscriber_count if r.subscriber_count > 0 else 1;`
`0.7*(views_last_30_days/s) + 0.3*(views_last_30_days/(view_count+1))`. -/
def growth_boost_score (r : Record) : ℚ :=
  let s : ℤ := if 0 < r.subscriber_count then r.subscriber_count else 1
  0.7 * ((r.views_last_30_days : ℚ) / (s : ℚ))
    + 0.3 * ((r.views_last_30_days : ℚ) / ((r.view_count : ℚ) + 1))

/-- `views_per_upload` from the source:
`views_last_30_days/videos_last_30_days if videos_last_30_days > 0 else
views_last_30_days`.  A NaN (missing) cell compares false, so the else
branch is taken, exactly as in pandas. -/
def views_per_upload (r : Record) : ℚ :=
  match r.videos_last_30_days with
  | some n => if 0 < n then (r.views_last_30_days : ℚ) / (n : ℚ)
              else (r.views_last_30_days : ℚ)
  | none => (r.views_last_30_days : ℚ)

/-- `audience_interest_rate` from the source:
`(views_last_30_days/(subscriber_count+1))*100`. -/
def audience_interest_rate (r : Record) : ℚ :=
  ((r.views_last_30_days : ℚ) / ((r.subscriber_count : ℚ) + 1)) * 100

/-- The scenario record of the spec: subscriber_count = 0,
view_count = 0, views_last_30_days = 100. -/
def demoRecord : Record :=
  { channel_name := "demo", category := "Music", country := "US"
  , subscriber_count := 0, view_count := 0, video_count := 0
  , views_last_30_days := 100, videos_last_30_days := some 0
  , channel_age_years := 1 }

/-- `subscriber_tier` from the source:
`pd.cut(subscriber_count, bins=[0,1000,10000,100000,1000000,inf],`
`labels=['0-1K','1K-10K','10K-100K','100K-1M','1M+'])`.
`pd.cut` defaults to `right=True` and `include_lowest=False`, so the
bins are the left-open right-closed intervals (0,1000], (1000,10000],
(10000,100000], (100000,1000000], (1000000,inf); a value outside every
bin (in particular 0) gets no label (NaN), rendered here as `none`. -/
def subscriber_tier (s : ℤ) : Option String :=
  if s ≤ 0 then none
  else if s ≤ 1000 then some "0-1K"
  else if s ≤ 10000 then some "1K-10K"
  else if s ≤ 100000 then some "10K-100K"
  else if s ≤ 1000000 then some "100K-1M"
  else some "1M+"

/-- The five tier labels, in bin order. -/
def tierLabels : List String := ["0-1K", "1K-10K", "10K-100K", "100K-1M", "1M+"]

/-- Number of elements of the series strictly below v,
`(series < value).sum()` in the source. -/
def countLt (S : List ℚ) (v : ℚ) : ℕ := S.countP (fun x => decide (x < v))

/-- Number of elements of the series equal to v. -/
def countEq (S : List ℚ) (v : ℚ) : ℕ := S.countP (fun x => decide (x = v))

/-- Value of `series.rank(pct=True)` at an element v of the series.
pandas assigns a tied group the mean of its ordinal ranks: for the
group of elements equal to v, the ordinal ranks are
countLt+1 .. countLt+countEq, whose mean is countLt + (countEq+1)/2;
`pct=True` divides by the series length. -/
def rankPct (S : List ℚ) (v : ℚ) : ℚ :=
  ((countLt S v : ℚ) + ((countEq S v : ℚ) + 1) / 2) / (S.length : ℚ)

/-- `pct_norm` from the source: the exact-match branch reads the
average-rank percentile of v off `series.rank(pct=True)` via
`.loc[series == value].iloc[0]`; when v does not occur (or the series
is empty) the `.iloc[0]` lookup raises and the fallback
`(series < value).sum() / max(1, len(series))` is returned. -/
def pct_norm (v : ℚ) (S : List ℚ) : ℚ :=
  if v ∈ S then rankPct S v
  else (countLt S v : ℚ) / ((max 1 S.length : ℕ) : ℚ)

/-- The seven posting-frequency bucket labels of the source, in order. -/
def uploadLabels : List String :=
  ["0-4", "5-9", "10-14", "15-19", "20-24", "25-29", "30+"]

/-- `pd.cut(videos_last_30_days, bins=[0,5,10,15,20,25,30,np.inf],`
`labels=..., include_lowest=True, right=False)` from the source: the
bins are [0,5), [5,10), [10,15), [15,20), [20,25), [25,30), [30,inf),
and a value below the lowest edge gets no bucket (NaN), rendered as
`none`. -/
def uploadsBucket (v : ℚ) : Option String :=
  if v < 0 then none
  else if v < 5 then some "0-4"
  else if v < 10 then some "5-9"
  else if v < 15 then some "10-14"
  else if v < 20 then some "15-19"
  else if v < 25 then some "20-24"
  else if v < 30 then some "25-29"
  else some "30+"

/-- Bucket of one row, `df_t1['uploads_bucket']`: `pd.cut` of the
videos_last_30_days column; a NaN cell gets a NaN bucket. -/
def rowBucket (r : Record) : Option String :=
  match r.videos_last_30_days with
  | some n => uploadsBucket (n : ℚ)
  | none => none

/-- The rows falling in the bucket labeled l. -/
def bucketMembers (rows : List Record) (l : String) : List Record :=
  rows.filter (fun r => rowBucket r = some l)

/-- pandas median of a (nonempty) series: mean of the two middle
elements of the sorted series (equal for odd length). -/
def median (l : List ℚ) : ℚ :=
  let s := List.insertionSort (· ≤ ·) l
  (s.getD ((l.length - 1) / 2) 0 + s.getD (l.length / 2) 0) / 2

/-- pandas median with its NaN result on an empty series rendered as
`none`. -/
def medianOpt (l : List ℚ) : Option ℚ :=
  if l = [] then none else some (median l)

/-- Line 934 of the source, applied inside tab 1 AFTER
growth_boost_score, views_per_upload and audience_interest_rate were
computed and BEFORE bucketing:
`pd.to_numeric(videos_last_30_days, errors='coerce').fillna(0)`
`.clip(lower=0)` — a missing cell becomes 0, negatives are clipped
to 0. -/
def coerceVideos (r : Record) : Record :=
  { r with videos_last_30_days := some (max (r.videos_last_30_days.getD 0) 0) }

/-- Bucket aggregate of the source:
`groupby('uploads_bucket', observed=True).agg(median views, nunique`
`channel_name)` then a left-merge onto the full label list with
`fillna(typical_views=0, ch_count=0)`; rendered as a map over the full
label list where an empty bucket yields (0, 0). -/
def bucketAgg (rows : List Record) : List (String × ℚ × ℕ) :=
  uploadLabels.map (fun l =>
    (l,
     if bucketMembers rows l = [] then 0
     else median ((bucketMembers rows l).map (fun r => (r.views_last_30_days : ℚ))),
     ((bucketMembers rows l).map Record.channel_name).dedup.length))

/-- Modelled from the claim of C8 (not present in the source): an
ingest-time clip of views_last_30_days to be non-negative.  Used only
to compare the claimed pipeline with the actual one. -/
def claimedViewsClip (r : Record) : Record :=
  { r with views_last_30_days := max r.views_last_30_days 0 }

/-- A loadable record with a negative views_last_30_days cell: nothing
in the source clips that column. -/
def negViewsRecord : Record :=
  { channel_name := "neg", category := "Music", country := "US"
  , subscriber_count := 1, view_count := 0, video_count := 0
  , views_last_30_days := -100, videos_last_30_days := some 3
  , channel_age_years := 2 }

/-- Distinct categories of the table in ascending order, as produced
by `groupby('category')` (pandas sorts group keys). -/
def categoryList (rows : List Record) : List String :=
  List.insertionSort (· ≤ ·) ((rows.map Record.category).dedup)

/-- Rows of one category. -/
def categoryRows (rows : List Record) (c : String) : List Record :=
  rows.filter (fun r => r.category = c)

/-- Group size, `agg('channel_name':'count')`. -/
def categoryCount (rows : List Record) (c : String) : ℕ :=
  (categoryRows rows c).length

/-- Group mean of subscriber_count, `agg('subscriber_count':'mean')`. -/
def meanSub (rows : List Record) (c : String) : ℚ :=
  ((categoryRows rows c).map (fun r => (r.subscriber_count : ℚ))).sum
    / ((categoryRows rows c).length : ℚ)

/-- The grouped table `df_t2.groupby('category').agg(...)`:
one entry (category, mean subscriber_count, member count) per
category. -/
def categoryStats (rows : List Record) : List (String × ℚ × ℕ) :=
  (categoryList rows).map (fun c => (c, meanSub rows c, categoryCount rows c))

/-- The grouped entries that survive the `>= 10` member filter. -/
def keptCategories (rows : List Record) : List (String × ℚ × ℕ) :=
  (categoryStats rows).filter (fun e => 10 ≤ e.2.2)

/-- `cat_s` of the source:
`cat_s[cat_s['channel_name']>=10]`
`.sort_values('subscriber_count', ascending=True).tail(20)`. -/
def cat_s (rows : List Record) : List (String × ℚ × ℕ) :=
  let sorted := List.insertionSort (fun a b => a.2.1 ≤ b.2.1) (keptCategories rows)
  sorted.drop (sorted.length - 20)

/-- Percent difference of the entity value against the peer median of
audience_interest_rate, with the zero-median guard of the source:
`((sel - m)/m*100) if m > 0 else 0`.  A NaN median (empty peer
series) also compares false against 0 and yields 0. -/
def interest_diff (sel : Record) (peers : List Record) : ℚ :=
  match medianOpt (peers.map audience_interest_rate) with
  | some m => if 0 < m then (audience_interest_rate sel - m) / m * 100 else 0
  | none => 0

/-- Percent difference for growth_boost_score, same guard. -/
def growth_diff (sel : Record) (peers : List Record) : ℚ :=
  match medianOpt (peers.map growth_boost_score) with
  | some m => if 0 < m then (growth_boost_score sel - m) / m * 100 else 0
  | none => 0

/-- Percent difference for views_per_upload, same guard. -/
def views_diff (sel : Record) (peers : List Record) : ℚ :=
  match medianOpt (peers.map views_per_upload) with
  | some m => if 0 < m then (views_per_upload sel - m) / m * 100 else 0
  | none => 0

/-- A peer record with audience_interest_rate 0 (no recent views). -/
def zeroAirRecord : Record :=
  { channel_name := "zero", category := "Music", country := "US"
  , subscriber_count := 50, view_count := 10, video_count := 2
  , views_last_30_days := 0, videos_last_30_days := some 1
  , channel_age_years := 2 }

/-- An entity with audience_interest_rate exactly 5
(1 view over subscriber_count 19: (1/20)*100 = 5). -/
def fiveAirRecord : Record :=
  { channel_name := "five", category := "Music", country := "US"
  , subscriber_count := 19, view_count := 10, video_count := 2
  , views_last_30_days := 1, videos_last_30_days := some 1
  , channel_age_years := 2 }

/-- One entry of the recommendation list.  Each constructor stands for
one string appended to `tips` in the source.  Every appended string is
a fixed template interpolated only with numbers, except the category
context line, which interpolates the data-dependent category name kept
here as the payload of `context`. -/
inductive Tip where
  | critical : Tip
  | excellent : Tip
  | important : Tip
  | opportunity : Tip
  | consider : Tip
  | context : String → Tip
  | bullet : Tip
  | overall : Tip
  | focus : ℕ → Tip
deriving DecidableEq, Repr

/-- Whether the pattern w occurs as a contiguous substring of t: the
Python `in` operator on strings. -/
def occursIn (w : List Char) : List Char → Bool
  | [] => w.isEmpty
  | c :: rest => w.isPrefixOf (c :: rest) || occursIn w rest

/-- `w in t` of the source, on Lean strings. -/
def strContains (t w : String) : Bool := occursIn w.data t.data

/-- The summary test of the source applied to one appended line:
`"CRITICAL" in t or "IMPORTANT" in t`.  Of the fixed templates, exactly
the CRITICAL and IMPORTANT headers contain a scanned word, and their
numeric interpolations cannot introduce one; the category context line
renders as "Category Context: " followed by the category name, so it is
scanned in full with its data-dependent payload. -/
def isKeyIssue : Tip → Bool
  | Tip.critical => true
  | Tip.important => true
  | Tip.context cat =>
      strContains ("Category Context: " ++ cat) "CRITICAL"
        || strContains ("Category Context: " ++ cat) "IMPORTANT"
  | _ => false

/-- The tip list built by the rule cascade of the source (lines
893-922), before the summary is prepended.  Comparisons against a NaN
median (empty series) are false, as in pandas. -/
def tipsBase (sel : Record) (peers : List Record) : List Tip :=
  (match medianOpt (peers.map audience_interest_rate) with
   | some m =>
      if audience_interest_rate sel < m then
        [Tip.critical, Tip.bullet, Tip.bullet, Tip.bullet, Tip.bullet]
      else if m * 1.2 < audience_interest_rate sel then
        [Tip.excellent, Tip.bullet, Tip.bullet]
      else []
   | none => [])
  ++ (match medianOpt (peers.map views_per_upload) with
      | some m =>
        if views_per_upload sel < m then
          [Tip.important, Tip.bullet, Tip.bullet, Tip.bullet]
        else []
      | none => [])
  ++ (match medianOpt (peers.map growth_boost_score) with
      | some m =>
        if growth_boost_score sel < m then [Tip.opportunity] else []
      | none => [])
  ++ (match sel.videos_last_30_days,
        medianOpt (peers.filterMap
          (fun r => r.videos_last_30_days.map (fun n => (n : ℚ)))) with
      | some v, some m =>
        if (v : ℚ) < m ∧ v < 4 then [Tip.consider] else []
      | _, _ => [])
  ++ [Tip.context sel.category, Tip.bullet]

/-- The summary step of the source: prepend OVERALL when no
CRITICAL/IMPORTANT line fired, otherwise prepend FOCUS AREAS carrying
the count of CRITICAL/IMPORTANT lines. -/
def prependSummary (base : List Tip) : List Tip :=
  if base.countP isKeyIssue = 0 then Tip.overall :: base
  else Tip.focus (base.countP isKeyIssue) :: base

/-- `tips` of the source: the rule cascade followed by the summary
insertion at index 0. -/
def tips (sel : Record) (peers : List Record) : List Tip :=
  prependSummary (tipsBase sel peers)

/-- An entity with no recent views: every comparative rule fires
against a strong peer. -/
def quietRecord : Record :=
  { channel_name := "quiet", category := "Music", country := "US"
  , subscriber_count := 0, view_count := 0, video_count := 0
  , views_last_30_days := 0, videos_last_30_days := some 0
  , channel_age_years := 2 }

/-- A record whose category name contains the word CRITICAL: the
summary scan of the source also matches the rendered category context
line for such data. -/
def criticalCategoryRecord : Record :=
  { channel_name := "crit", category := "CRITICAL THEORY", country := "US"
  , subscriber_count := 10, view_count := 10, video_count := 1
  , views_last_30_days := 10, videos_last_30_days := some 5
  , channel_age_years := 2 }

/-- A strong peer: high audience_interest_rate, views_per_upload and
growth_boost_score. -/
def strongPeerRecord : Record :=
  { channel_name := "peer", category := "Music", country := "US"
  , subscriber_count := 0, view_count := 0, video_count := 0
  , views_last_30_days := 100, videos_last_30_days := some 1
  , channel_age_years := 2 }

/-- The peer-group selection of the source:
`df_t1[(category == sel.category) & (channel_age_years.between(`
`max(0, sel.age-3), sel.age+3))]`, falling back to the whole
same-category subset when that windowed subset is empty. -/
def peersWindow (rows : List Record) (r : Record) : List Record :=
  rows.filter (fun x => x.category = r.category
    ∧ max 0 (r.channel_age_years - 3) ≤ x.channel_age_years
    ∧ x.channel_age_years ≤ r.channel_age_years + 3)

/-- The fallback of the source: `if peers.empty: peers =`
`df_t1[df_t1['category']==sel_r['category']]`. -/
def peersOf (rows : List Record) (r : Record) : List Record :=
  if peersWindow rows r = [] then rows.filter (fun x => x.category = r.category)
  else peersWindow rows r

/-- COUNTRY_MAP of the source: ISO alpha-2 code to display name, in
source order. -/
def COUNTRY_MAP : List (String × String) :=
  [("US", "United States"), ("GB", "United Kingdom"), ("IN", "India"),
   ("CA", "Canada"), ("AU", "Australia"),
   ("DE", "Germany"), ("FR", "France"), ("IT", "Italy"), ("ES", "Spain"),
   ("NL", "Netherlands"),
   ("BR", "Brazil"), ("MX", "Mexico"), ("AR", "Argentina"), ("CL", "Chile"),
   ("CO", "Colombia"),
   ("JP", "Japan"), ("KR", "South Korea"), ("CN", "China"), ("TW", "Taiwan"),
   ("HK", "Hong Kong"),
   ("PK", "Pakistan"), ("BD", "Bangladesh"), ("PH", "Philippines"),
   ("VN", "Vietnam"), ("TH", "Thailand"),
   ("ID", "Indonesia"), ("MY", "Malaysia"), ("SG", "Singapore"),
   ("NP", "Nepal"), ("LK", "Sri Lanka"),
   ("SA", "Saudi Arabia"), ("AE", "United Arab Emirates"), ("TR", "Turkey"),
   ("EG", "Egypt"), ("IL", "Israel"),
   ("RU", "Russia"), ("PL", "Poland"), ("UA", "Ukraine"), ("RO", "Romania"),
   ("CZ", "Czech Republic"),
   ("SE", "Sweden"), ("NO", "Norway"), ("DK", "Denmark"), ("FI", "Finland"),
   ("GR", "Greece"),
   ("PT", "Portugal"), ("BE", "Belgium"), ("AT", "Austria"),
   ("CH", "Switzerland"), ("IE", "Ireland"),
   ("ZA", "South Africa"), ("NG", "Nigeria"), ("KE", "Kenya"),
   ("GH", "Ghana"), ("TZ", "Tanzania"),
   ("PE", "Peru"), ("EC", "Ecuador"), ("VE", "Venezuela"),
   ("UY", "Uruguay"), ("PY", "Paraguay"),
   ("NZ", "New Zealand"), ("KH", "Cambodia"), ("LA", "Laos"),
   ("MM", "Myanmar"), ("KZ", "Kazakhstan"),
   ("HU", "Hungary"), ("SK", "Slovakia"), ("BG", "Bulgaria"),
   ("HR", "Croatia"), ("RS", "Serbia"),
   ("SI", "Slovenia"), ("LT", "Lithuania"), ("LV", "Latvia"),
   ("EE", "Estonia"), ("BY", "Belarus"),
   ("MA", "Morocco"), ("DZ", "Algeria"), ("TN", "Tunisia"),
   ("LY", "Libya"), ("JO", "Jordan"),
   ("IQ", "Iraq"), ("LB", "Lebanon"), ("CY", "Cyprus"),
   ("QA", "Qatar"), ("OM", "Oman"),
   ("BH", "Bahrain"), ("UG", "Uganda"), ("ZW", "Zimbabwe"),
   ("PR", "Puerto Rico"), ("SV", "El Salvador"),
   ("CR", "Costa Rica"), ("HN", "Honduras"), ("GT", "Guatemala"),
   ("PA", "Panama"), ("DO", "Dominican Republic"),
   ("JM", "Jamaica"), ("TT", "Trinidad and Tobago"), ("BS", "Bahamas"),
   ("BB", "Barbados"), ("AL", "Albania"),
   ("MK", "North Macedonia"), ("BA", "Bosnia and Herzegovina"),
   ("ME", "Montenegro"), ("GE", "Georgia"),
   ("AM", "Armenia"), ("AZ", "Azerbaijan"), ("IS", "Iceland"),
   ("LU", "Luxembourg"), ("MT", "Malta"),
   ("MC", "Monaco"), ("MD", "Moldova"), ("BM", "Bermuda"),
   ("AG", "Antigua and Barbuda"), ("VI", "U.S. Virgin Islands"),
   ("UM", "U.S. Minor Outlying Islands"), ("CX", "Christmas Island"),
   ("GM", "Gambia"), ("AF", "Afghanistan"),
   ("AQ", "Antarctica"), ("Unknown", "Unknown")]

/-- `t1_cntry_codes = [k for k,v in COUNTRY_MAP.items() if v in sel]`:
the selected display names translated back to raw codes. -/
def countryCodes (sel : List String) : List String :=
  (COUNTRY_MAP.filter (fun p => p.2 ∈ sel)).map Prod.fst

/-- The country step of the filter engine:
`if codes: df = df[df['country'].isin(codes)]` — an empty code list
applies no restriction. -/
def applyCountryFilter (rows : List Record) (sel : List String) : List Record :=
  if countryCodes sel = [] then rows
  else rows.filter (fun r => r.country ∈ countryCodes sel)

end Dashboard

namespace Dashboard

/-- C1: for every record with non-negative subscriber_count, view_count
and views_last_30_days, growth_boost_score equals
0.7*(v30/max(sub,1)) + 0.3*(v30/(vc+1)); both guarded denominators are
nonzero; and the scenario record (sub=0, vc=0, v30=100) scores exactly 100. -/
theorem growth_boost_score_spec :
    (∀ r : Record, 0 ≤ r.subscriber_count → 0 ≤ r.view_count →
      0 ≤ r.views_last_30_days →
      growth_boost_score r
        = 0.7 * ((r.views_last_30_days : ℚ) / ((max r.subscriber_count 1 : ℤ) : ℚ))
          + 0.3 * ((r.views_last_30_days : ℚ) / ((r.view_count : ℚ) + 1))
        ∧ ((max r.subscriber_count 1 : ℤ) : ℚ) ≠ 0
        ∧ ((r.view_count : ℚ) + 1) ≠ 0)
    ∧ growth_boost_score demoRecord = 100 := by
  constructor
  · intro r hs hv hw
    have hmax : (if 0 < r.subscriber_count then r.subscriber_count else 1)
        = max r.subscriber_count 1 := by
      split
      · omega
      · omega
    refine ⟨?_, ?_, ?_⟩
    · unfold growth_boost_score
      rw [hmax]
    · have h1 : (1 : ℤ) ≤ max r.subscriber_count 1 := le_max_right _ _
      have : (0 : ℤ) < max r.subscriber_count 1 := by omega
      exact_mod_cast this.ne.symm
    · have : (0 : ℚ) < (r.view_count : ℚ) + 1 := by positivity
      exact this.ne.symm
  · unfold growth_boost_score demoRecord
    norm_num

/-- Witness for C1 at the scenario record. -/
theorem growth_boost_score_spec_witness :
    (0 ≤ demoRecord.subscriber_count ∧ 0 ≤ demoRecord.view_count ∧
      0 ≤ demoRecord.views_last_30_days) ∧
    growth_boost_score demoRecord
      = 0.7 * ((demoRecord.views_last_30_days : ℚ)
            / ((max demoRecord.subscriber_count 1 : ℤ) : ℚ))
        + 0.3 * ((demoRecord.views_last_30_days : ℚ)
            / ((demoRecord.view_count : ℚ) + 1)) :=
  ⟨⟨by decide, by decide, by decide⟩,
    (growth_boost_score_spec.1 demoRecord (by decide) (by decide) (by decide)).1⟩

/-- C3 counterexample: the boundary value 1000 falls in the LOWER bin
("0-1K", not "1K-10K"), and 0 falls in no bin at all, because `pd.cut`
defaults to right-closed intervals excluding the lowest edge. -/
theorem subscriber_tier_boundary_counterexample :
    subscriber_tier 1000 = some "0-1K"
      ∧ some "0-1K" ≠ some "1K-10K"
      ∧ subscriber_tier 0 = none := by
  refine ⟨by decide, by decide, by decide⟩

/-- C3 amended: subscriber_tier bins subscriber_count into the
left-open right-closed intervals (0,1000], (1000,10^4], (10^4,10^5],
(10^5,10^6], (10^6,∞) labeled "0-1K".."1M+"; each positive count gets
exactly one of the 5 labels, each boundary value 1000, 10^4, 10^5, 10^6
maps to the lower bin, and 0 gets no label (the classification is not
total at 0). -/
theorem subscriber_tier_amended (s : ℤ) (_hs : 0 ≤ s) :
    (s = 0 → subscriber_tier s = none)
    ∧ (0 < s ∧ s ≤ 1000 → subscriber_tier s = some "0-1K")
    ∧ (1000 < s ∧ s ≤ 10000 → subscriber_tier s = some "1K-10K")
    ∧ (10000 < s ∧ s ≤ 100000 → subscriber_tier s = some "10K-100K")
    ∧ (100000 < s ∧ s ≤ 1000000 → subscriber_tier s = some "100K-1M")
    ∧ (1000000 < s → subscriber_tier s = some "1M+")
    ∧ (0 < s → ∃ l ∈ tierLabels, subscriber_tier s = some l) := by
  unfold subscriber_tier
  refine ⟨?_, ?_, ?_, ?_, ?_, ?_, ?_⟩
  · intro h
    simp [h]
  · intro ⟨h1, h2⟩
    rw [if_neg (by omega), if_pos h2]
  · intro ⟨h1, h2⟩
    rw [if_neg (by omega), if_neg (by omega), if_pos h2]
  · intro ⟨h1, h2⟩
    rw [if_neg (by omega), if_neg (by omega), if_neg (by omega), if_pos h2]
  · intro ⟨h1, h2⟩
    rw [if_neg (by omega), if_neg (by omega), if_neg (by omega),
      if_neg (by omega), if_pos h2]
  · intro h
    rw [if_neg (by omega), if_neg (by omega), if_neg (by omega),
      if_neg (by omega), if_neg (by omega)]
  · intro h
    rw [if_neg (by omega)]
    split
    · exact ⟨"0-1K", by decide, rfl⟩
    · split
      · exact ⟨"1K-10K", by decide, rfl⟩
      · split
        · exact ⟨"10K-100K", by decide, rfl⟩
        · split
          · exact ⟨"100K-1M", by decide, rfl⟩
          · exact ⟨"1M+", by decide, rfl⟩

/-- Witness for the amended C3 theorem at s = 1000. -/
theorem subscriber_tier_amended_witness :
    ((0:ℤ) ≤ 1000 ∧ (0:ℤ) < 1000 ∧ (1000:ℤ) ≤ 1000) ∧
      subscriber_tier 1000 = some "0-1K" :=
  ⟨⟨by decide, by decide, by decide⟩,
    (subscriber_tier_amended 1000 (by decide)).2.1 ⟨by decide, by decide⟩⟩

theorem countLt_add_countEq_le (S : List ℚ) (v : ℚ) :
    countLt S v + countEq S v ≤ S.length := by
  induction S with
  | nil => simp [countLt, countEq]
  | cons a t ih =>
    unfold countLt countEq at *
    rw [List.countP_cons, List.countP_cons, List.length_cons]
    by_cases h2 : a = v
    · subst h2
      simp
      omega
    · by_cases h1 : a < v
      · simp [h1, h2]
        omega
      · simp [h1, h2]
        omega

theorem countEq_pos_of_mem {S : List ℚ} {v : ℚ} (h : v ∈ S) :
    1 ≤ countEq S v := by
  have : 0 < countEq S v := by
    rw [countEq, List.countP_pos_iff]
    exact ⟨v, h, by simp⟩
  omega

theorem countLt_eq_zero_of_min {S : List ℚ} {v : ℚ} (h : ∀ x ∈ S, v ≤ x) :
    countLt S v = 0 := by
  rw [countLt, List.countP_eq_zero]
  intro x hx
  simpa using not_lt.mpr (h x hx)

/-- C2: for a non-empty series, pct_norm always lands in [0,1]; on an
exact match it is the average-rank percentile
(countLt + (countEq+1)/2)/|S|; otherwise it is the strict-less-than
fallback countLt/max(1,|S|); and at the minimum of the series (an exact
match) it equals the tie-rank (countEq+1)/(2|S|) of the minimum. -/
theorem pct_norm_spec (v : ℚ) (S : List ℚ) (hS : S ≠ []) :
    (0 ≤ pct_norm v S ∧ pct_norm v S ≤ 1)
    ∧ (v ∈ S → pct_norm v S
        = ((countLt S v : ℚ) + ((countEq S v : ℚ) + 1) / 2) / (S.length : ℚ))
    ∧ (v ∉ S → pct_norm v S
        = (countLt S v : ℚ) / ((max 1 S.length : ℕ) : ℚ))
    ∧ ((v ∈ S ∧ ∀ x ∈ S, v ≤ x) → pct_norm v S
        = ((countEq S v : ℚ) + 1) / (2 * (S.length : ℚ))) := by
  have hn : 0 < S.length := List.length_pos.mpr hS
  have hnQ : (0 : ℚ) < (S.length : ℚ) := by exact_mod_cast hn
  refine ⟨?_, ?_, ?_, ?_⟩
  · by_cases hv : v ∈ S
    · have h1 : 1 ≤ countEq S v := countEq_pos_of_mem hv
      have h2 : countLt S v + countEq S v ≤ S.length := countLt_add_countEq_le S v
      have h1Q : (1 : ℚ) ≤ (countEq S v : ℚ) := by exact_mod_cast h1
      have h2Q : (countLt S v : ℚ) + (countEq S v : ℚ) ≤ (S.length : ℚ) := by
        exact_mod_cast h2
      rw [pct_norm, if_pos hv, rankPct]
      constructor
      · apply div_nonneg _ hnQ.le
        positivity
      · rw [div_le_one hnQ]
        linarith
    · rw [pct_norm, if_neg hv]
      have hmQ : (0 : ℚ) < ((max 1 S.length : ℕ) : ℚ) := by
        exact_mod_cast Nat.lt_of_lt_of_le Nat.zero_lt_one (le_max_left 1 S.length)
      constructor
      · positivity
      · rw [div_le_one hmQ]
        have : countLt S v ≤ S.length := List.countP_le_length _
        have : countLt S v ≤ max 1 S.length := le_trans this (le_max_right 1 _)
        exact_mod_cast this
  · intro hv
    rw [pct_norm, if_pos hv, rankPct]
  · intro hv
    rw [pct_norm, if_neg hv]
  · intro ⟨hv, hmin⟩
    rw [pct_norm, if_pos hv, rankPct, countLt_eq_zero_of_min hmin]
    push_cast
    rw [zero_add, div_div]

/-- Witness for C2 on the series [1, 2, 2, 3] at v = 2 (an exact match
with one tie partner) and at v = 0 (fallback branch). -/
theorem pct_norm_spec_witness :
    (([1, 2, 2, 3] : List ℚ) ≠ []
      ∧ 0 ≤ pct_norm 2 [1, 2, 2, 3] ∧ pct_norm 2 [1, 2, 2, 3] ≤ 1)
    ∧ pct_norm 2 [1, 2, 2, 3]
        = ((countLt [1, 2, 2, 3] 2 : ℚ) + ((countEq [1, 2, 2, 3] 2 : ℚ) + 1) / 2)
          / (([1, 2, 2, 3] : List ℚ).length : ℚ)
    ∧ pct_norm 0 [1, 2, 2, 3]
        = (countLt [1, 2, 2, 3] 0 : ℚ)
          / ((max 1 ([1, 2, 2, 3] : List ℚ).length : ℕ) : ℚ)
    ∧ pct_norm 1 [1, 2, 2, 3]
        = ((countEq [1, 2, 2, 3] 1 : ℚ) + 1)
          / (2 * (([1, 2, 2, 3] : List ℚ).length : ℚ)) :=
  ⟨⟨by decide, (pct_norm_spec 2 [1, 2, 2, 3] (by decide)).1⟩,
    (pct_norm_spec 2 [1, 2, 2, 3] (by decide)).2.1 (by decide),
    (pct_norm_spec 0 [1, 2, 2, 3] (by decide)).2.2.1 (by decide),
    (pct_norm_spec 1 [1, 2, 2, 3] (by decide)).2.2.2 ⟨by decide, by decide⟩⟩

theorem uploadsBucket_total (v : ℚ) (hv : 0 ≤ v) :
    ∃ l ∈ uploadLabels, uploadsBucket v = some l := by
  unfold uploadsBucket
  rw [if_neg (not_lt.mpr hv)]
  split
  · exact ⟨"0-4", by decide, rfl⟩
  split
  · exact ⟨"5-9", by decide, rfl⟩
  split
  · exact ⟨"10-14", by decide, rfl⟩
  split
  · exact ⟨"15-19", by decide, rfl⟩
  split
  · exact ⟨"20-24", by decide, rfl⟩
  split
  · exact ⟨"25-29", by decide, rfl⟩
  exact ⟨"30+", by decide, rfl⟩

/-- C4: every non-negative videos_last_30_days value gets exactly one
of the 7 buckets, with the half-open intervals [0,5), [5,10), ...,
[30,∞); and for every input table the bucket aggregate lists all 7
buckets in order, an empty bucket getting typical_value 0 and
member count 0. -/
theorem uploads_bucket_spec :
    (∀ v : ℚ, 0 ≤ v →
      (∃ l ∈ uploadLabels, uploadsBucket v = some l)
      ∧ (∀ l1 l2, uploadsBucket v = some l1 → uploadsBucket v = some l2 → l1 = l2)
      ∧ (v < 5 → uploadsBucket v = some "0-4")
      ∧ (5 ≤ v → v < 10 → uploadsBucket v = some "5-9")
      ∧ (10 ≤ v → v < 15 → uploadsBucket v = some "10-14")
      ∧ (15 ≤ v → v < 20 → uploadsBucket v = some "15-19")
      ∧ (20 ≤ v → v < 25 → uploadsBucket v = some "20-24")
      ∧ (25 ≤ v → v < 30 → uploadsBucket v = some "25-29")
      ∧ (30 ≤ v → uploadsBucket v = some "30+"))
    ∧ (∀ rows : List Record,
        (bucketAgg rows).map Prod.fst = uploadLabels
        ∧ ∀ e ∈ bucketAgg rows, bucketMembers rows e.1 = [] →
            e.2.1 = 0 ∧ e.2.2 = 0) := by
  constructor
  · intro v hv
    refine ⟨uploadsBucket_total v hv, ?_, ?_, ?_, ?_, ?_, ?_, ?_, ?_⟩
    · intro l1 l2 h1 h2
      rw [h1] at h2
      exact (Option.some.injEq _ _).mp h2
    · intro h
      unfold uploadsBucket
      rw [if_neg (not_lt.mpr hv), if_pos h]
    · intro h1 h2
      unfold uploadsBucket
      rw [if_neg (not_lt.mpr hv), if_neg (by linarith), if_pos h2]
    · intro h1 h2
      unfold uploadsBucket
      rw [if_neg (not_lt.mpr hv), if_neg (by linarith), if_neg (by linarith),
        if_pos h2]
    · intro h1 h2
      unfold uploadsBucket
      rw [if_neg (not_lt.mpr hv), if_neg (by linarith), if_neg (by linarith),
        if_neg (by linarith), if_pos h2]
    · intro h1 h2
      unfold uploadsBucket
      rw [if_neg (not_lt.mpr hv), if_neg (by linarith), if_neg (by linarith),
        if_neg (by linarith), if_neg (by linarith), if_pos h2]
    · intro h1 h2
      unfold uploadsBucket
      rw [if_neg (not_lt.mpr hv), if_neg (by linarith), if_neg (by linarith),
        if_neg (by linarith), if_neg (by linarith), if_neg (by linarith),
        if_pos h2]
    · intro h
      unfold uploadsBucket
      rw [if_neg (not_lt.mpr hv), if_neg (by linarith), if_neg (by linarith),
        if_neg (by linarith), if_neg (by linarith), if_neg (by linarith),
        if_neg (by linarith)]
  · intro rows
    constructor
    · rw [bucketAgg, List.map_map]
      exact List.map_id _
    · intro e he hempty
      rcases List.mem_map.mp he with ⟨l, _, rfl⟩
      simp only at hempty
      constructor
      · simp only [hempty]
        simp
      · simp only [hempty]
        rfl

/-- Witness for C4 at v = 7 and at a concrete one-row table. -/
theorem uploads_bucket_spec_witness :
    ((0 : ℚ) ≤ 7 ∧ (5 : ℚ) ≤ 7 ∧ (7 : ℚ) < 10 ∧ uploadsBucket 7 = some "5-9")
    ∧ (bucketAgg [demoRecord]).map Prod.fst = uploadLabels
    ∧ (bucketMembers [demoRecord] "30+" = [] →
        ("30+", (0:ℚ), (0:ℕ)).2.1 = 0 ∧ ("30+", (0:ℚ), (0:ℕ)).2.2 = 0) :=
  ⟨⟨by norm_num, by norm_num, by norm_num,
      (uploads_bucket_spec.1 7 (by norm_num)).2.2.2.1 (by norm_num) (by norm_num)⟩,
    (uploads_bucket_spec.2 [demoRecord]).1,
    fun _ => ⟨rfl, rfl⟩⟩

/-- C8 counterexample: views_last_30_days is never clipped, so a
record with views_last_30_days = -100 reaches the metric engine as is:
its growth_boost_score is -100, while the claimed ingest-clipped
record would score 0, and its audience_interest_rate is negative. -/
theorem ingest_clip_counterexample :
    growth_boost_score negViewsRecord = -100
    ∧ growth_boost_score (claimedViewsClip negViewsRecord) = 0
    ∧ growth_boost_score negViewsRecord
        ≠ growth_boost_score (claimedViewsClip negViewsRecord)
    ∧ audience_interest_rate negViewsRecord < 0 := by
  refine ⟨?_, ?_, ?_, ?_⟩
  · unfold growth_boost_score negViewsRecord
    norm_num
  · unfold growth_boost_score claimedViewsClip negViewsRecord
    norm_num
  · unfold growth_boost_score claimedViewsClip negViewsRecord
    norm_num
  · unfold audience_interest_rate negViewsRecord
    norm_num

/-- C8 amended: only videos_last_30_days is coerced (NaN to 0,
negatives clipped to 0), and only after the per-record metrics are
computed on the raw values, but before bucketing: every value entering
the bucketing is a defined integer ≥ 0 and receives one of the 7
buckets; views_last_30_days is never coerced. -/
theorem coerce_videos_amended (r : Record) :
    ∃ q : ℤ, (coerceVideos r).videos_last_30_days = some q ∧ 0 ≤ q
      ∧ (coerceVideos r).views_last_30_days = r.views_last_30_days
      ∧ growth_boost_score (coerceVideos r) = growth_boost_score r
      ∧ audience_interest_rate (coerceVideos r) = audience_interest_rate r
      ∧ ∃ l ∈ uploadLabels, rowBucket (coerceVideos r) = some l := by
  refine ⟨max (r.videos_last_30_days.getD 0) 0, rfl, le_max_right _ _, rfl, rfl, rfl, ?_⟩
  have h0 : (0 : ℚ) ≤ ((max (r.videos_last_30_days.getD 0) 0 : ℤ) : ℚ) := by
    exact_mod_cast le_max_right _ _
  exact uploadsBucket_total _ h0

/-- C6: whenever a peer median (of audience_interest_rate,
growth_boost_score or views_per_upload) is 0 (or negative, or missing
entirely), the reported percent difference is exactly 0; in the
concrete scenario with all-zero peer engagement and entity value 5 the
reported difference is 0. -/
theorem percent_diff_zero_median_guard :
    (∀ (sel : Record) (peers : List Record) (m : ℚ),
      (medianOpt (peers.map audience_interest_rate) = some m → m ≤ 0 →
        interest_diff sel peers = 0)
      ∧ (medianOpt (peers.map growth_boost_score) = some m → m ≤ 0 →
        growth_diff sel peers = 0)
      ∧ (medianOpt (peers.map views_per_upload) = some m → m ≤ 0 →
        views_diff sel peers = 0))
    ∧ audience_interest_rate fiveAirRecord = 5
    ∧ medianOpt ([zeroAirRecord].map audience_interest_rate) = some 0
    ∧ interest_diff fiveAirRecord [zeroAirRecord] = 0 := by
  refine ⟨?_, ?_, ?_, ?_⟩
  · intro sel peers m
    refine ⟨?_, ?_, ?_⟩
    · intro hm hle
      unfold interest_diff
      rw [hm]
      exact if_neg (not_lt.mpr hle)
    · intro hm hle
      unfold growth_diff
      rw [hm]
      exact if_neg (not_lt.mpr hle)
    · intro hm hle
      unfold views_diff
      rw [hm]
      exact if_neg (not_lt.mpr hle)
  · norm_num [audience_interest_rate, fiveAirRecord]
  · norm_num [medianOpt, median, audience_interest_rate, zeroAirRecord,
      List.insertionSort, List.orderedInsert]
  · norm_num [interest_diff, medianOpt, median, audience_interest_rate,
      zeroAirRecord, fiveAirRecord, List.insertionSort, List.orderedInsert]

/-- Witness for C6 at the all-zero-engagement peer group. -/
theorem percent_diff_zero_median_guard_witness :
    (medianOpt ([zeroAirRecord].map audience_interest_rate) = some 0
      ∧ (0 : ℚ) ≤ 0)
    ∧ interest_diff fiveAirRecord [zeroAirRecord] = 0 :=
  ⟨⟨percent_diff_zero_median_guard.2.2.1, le_refl 0⟩,
    (percent_diff_zero_median_guard.1 fiveAirRecord [zeroAirRecord] 0).1
      percent_diff_zero_median_guard.2.2.1 (le_refl 0)⟩

/-- C9: a selected entity (a row of the filtered table, with the
non-negative channel age the data model guarantees) is always a member
of its own peer group, so the peer group and every series drawn from
it are non-empty and the degenerate zero-peer state is unreachable. -/
theorem peers_contains_self (rows : List Record) (r : Record)
    (hr : r ∈ rows) (ha : 0 ≤ r.channel_age_years) :
    r ∈ peersOf rows r ∧ peersOf rows r ≠ []
      ∧ ∀ f : Record → ℚ, (peersOf rows r).map f ≠ [] := by
  have hmem : r ∈ peersWindow rows r := by
    unfold peersWindow
    rw [List.mem_filter]
    refine ⟨hr, ?_⟩
    simp only [decide_eq_true_eq, eq_self_iff_true, true_and]
    exact ⟨max_le ha (by linarith), by linarith⟩
  have hw : peersWindow rows r ≠ [] := List.ne_nil_of_mem hmem
  have hpeers : peersOf rows r = peersWindow rows r := by
    unfold peersOf
    rw [if_neg hw]
  refine ⟨?_, ?_, ?_⟩
  · rw [hpeers]
    exact hmem
  · rw [hpeers]
    exact hw
  · intro f
    rw [hpeers]
    intro hnil
    exact hw (List.map_eq_nil_iff.mp hnil)

/-- Witness for C9 at a one-row table. -/
theorem peers_contains_self_witness :
    (demoRecord ∈ [demoRecord] ∧ 0 ≤ demoRecord.channel_age_years)
    ∧ demoRecord ∈ peersOf [demoRecord] demoRecord
    ∧ peersOf [demoRecord] demoRecord ≠ [] :=
  ⟨⟨by decide, by decide⟩,
    (peers_contains_self [demoRecord] demoRecord (by decide) (by decide)).1,
    (peers_contains_self [demoRecord] demoRecord (by decide) (by decide)).2.1⟩

/-- C10: a country selection none of whose names is a display value of
COUNTRY_MAP translates to an empty code list, and the country filter
then imposes no restriction at all — the output equals the input table
and the empty-selection result, not the empty set. -/
theorem unmapped_country_filter (rows : List Record) (sel : List String)
    (h : ∀ n ∈ sel, n ∉ COUNTRY_MAP.map Prod.snd) :
    countryCodes sel = [] ∧ applyCountryFilter rows sel = rows
      ∧ applyCountryFilter rows sel = applyCountryFilter rows [] := by
  have hcodes : countryCodes sel = [] := by
    unfold countryCodes
    rw [List.map_eq_nil_iff, List.filter_eq_nil_iff]
    intro p hp
    simp only [decide_eq_true_eq]
    intro hmem
    exact h p.2 hmem (List.mem_map_of_mem Prod.snd hp)
  have hempty : countryCodes [] = [] := by decide
  refine ⟨hcodes, ?_, ?_⟩
  · unfold applyCountryFilter
    rw [if_pos hcodes]
  · unfold applyCountryFilter
    rw [if_pos hcodes, if_pos hempty]

/-- Witness for C10: selecting the unmapped name "ZZ" (a raw code
passed through at ingest, not a display name) filters nothing. -/
theorem unmapped_country_filter_witness :
    (∀ n ∈ ["ZZ"], n ∉ COUNTRY_MAP.map Prod.snd)
    ∧ applyCountryFilter [demoRecord] ["ZZ"] = [demoRecord] :=
  ⟨by decide,
    (unmapped_country_filter [demoRecord] ["ZZ"] (by decide)).2.1⟩

theorem prependSummary_head (base : List Tip) :
    prependSummary base ≠ []
    ∧ ((prependSummary base).head? = some Tip.overall
        ∨ ∃ k, (prependSummary base).head? = some (Tip.focus k))
    ∧ ((prependSummary base).head? = some Tip.overall →
        (prependSummary base).tail.countP isKeyIssue = 0)
    ∧ ∀ k, (prependSummary base).head? = some (Tip.focus k) →
        k = (prependSummary base).tail.countP isKeyIssue ∧ 0 < k := by
  unfold prependSummary
  by_cases h : base.countP isKeyIssue = 0
  · rw [if_pos h]
    refine ⟨by simp, Or.inl rfl, fun _ => by simpa using h, ?_⟩
    intro k hk
    simp at hk
  · rw [if_neg h]
    refine ⟨by simp, Or.inr ⟨base.countP isKeyIssue, rfl⟩, ?_, ?_⟩
    · intro hk
      simp at hk
    · intro k hk
      simp only [List.head?_cons, Option.some.injEq, Tip.focus.injEq] at hk
      refine ⟨?_, ?_⟩
      · rw [← hk]
        rfl
      · omega

theorem tips_critical_category_eval :
    tips criticalCategoryRecord [criticalCategoryRecord]
      = [Tip.focus 1, Tip.context "CRITICAL THEORY", Tip.bullet] := by
  have hkey : isKeyIssue (Tip.context "CRITICAL THEORY") = true := by decide
  have hb : isKeyIssue Tip.bullet = false := rfl
  norm_num [tips, tipsBase, prependSummary, medianOpt, median,
    audience_interest_rate, views_per_upload, growth_boost_score,
    criticalCategoryRecord, List.insertionSort, List.orderedInsert,
    List.countP, List.countP.go, List.filterMap_cons, List.getD, hkey, hb]

/-- C7 counterexample: for an entity in the category "CRITICAL THEORY"
that is its own (only) peer, no CRITICAL or IMPORTANT finding fires,
yet the summary at index 0 is a FOCUS-AREAS entry with count 1, not
the overall-positive entry the claim demands: the summary scan of the
source matches the rendered category context line. -/
theorem tips_category_text_counterexample :
    tips criticalCategoryRecord [criticalCategoryRecord]
      = [Tip.focus 1, Tip.context "CRITICAL THEORY", Tip.bullet]
    ∧ (tips criticalCategoryRecord [criticalCategoryRecord]).countP
        (fun t => t == Tip.critical || t == Tip.important) = 0
    ∧ (tips criticalCategoryRecord [criticalCategoryRecord]).head?
        ≠ some Tip.overall := by
  refine ⟨tips_critical_category_eval, ?_, ?_⟩
  · rw [tips_critical_category_eval]
    rfl
  · rw [tips_critical_category_eval]
    decide

/-- C7 amended: the tip generator is a pure function (identical inputs
give the identical ordered sequence) and the summary is always at
index 0: an overall-positive entry when no emitted line contains the
word CRITICAL or IMPORTANT, otherwise a FOCUS-AREAS entry whose count
equals the number of such lines in the rest of the list — the CRITICAL
and IMPORTANT rule headers, plus the category context line when the
category name itself contains one of the scanned words. -/
theorem tips_deterministic_and_summary
    (sel : Record) (peers : List Record) (sel2 : Record) (peers2 : List Record) :
    (sel = sel2 → peers = peers2 → tips sel peers = tips sel2 peers2)
    ∧ tips sel peers ≠ []
    ∧ ((tips sel peers).head? = some Tip.overall
        ∨ ∃ k, (tips sel peers).head? = some (Tip.focus k))
    ∧ ((tips sel peers).head? = some Tip.overall →
        (tips sel peers).tail.countP isKeyIssue = 0)
    ∧ ∀ k, (tips sel peers).head? = some (Tip.focus k) →
        k = (tips sel peers).tail.countP isKeyIssue ∧ 0 < k := by
  have h := prependSummary_head (tipsBase sel peers)
  exact ⟨fun h1 h2 => by rw [h1, h2], h.1, h.2.1, h.2.2.1, h.2.2.2⟩

theorem tips_quiet_strong_eval :
    tips quietRecord [strongPeerRecord]
      = [Tip.focus 2,
         Tip.critical, Tip.bullet, Tip.bullet, Tip.bullet, Tip.bullet,
         Tip.important, Tip.bullet, Tip.bullet, Tip.bullet,
         Tip.opportunity, Tip.consider, Tip.context "Music", Tip.bullet] := by
  have hkey : isKeyIssue (Tip.context "Music") = false := by decide
  have hc : isKeyIssue Tip.critical = true := rfl
  have hi : isKeyIssue Tip.important = true := rfl
  have hb : isKeyIssue Tip.bullet = false := rfl
  have hop : isKeyIssue Tip.opportunity = false := rfl
  have hcons : isKeyIssue Tip.consider = false := rfl
  norm_num [tips, tipsBase, prependSummary, medianOpt, median,
    audience_interest_rate, views_per_upload, growth_boost_score,
    quietRecord, strongPeerRecord, hkey, hc, hi, hb, hop, hcons,
    List.insertionSort, List.orderedInsert, List.countP, List.countP.go,
    List.filterMap_cons, List.getD, Option.bind]

/-- Witness for C7: an entity with no recent views against one strong
peer makes CRITICAL and IMPORTANT fire, and the theorem instantiated
there certifies the FOCUS-AREAS header count 2. -/
theorem tips_deterministic_and_summary_witness :
    tips quietRecord [strongPeerRecord] = tips quietRecord [strongPeerRecord]
    ∧ (2 = (tips quietRecord [strongPeerRecord]).tail.countP isKeyIssue
        ∧ 0 < 2) :=
  ⟨(tips_deterministic_and_summary quietRecord [strongPeerRecord]
      quietRecord [strongPeerRecord]).1 rfl rfl,
    (tips_deterministic_and_summary quietRecord [strongPeerRecord]
      quietRecord [strongPeerRecord]).2.2.2.2 2
      (by rw [tips_quiet_strong_eval]; rfl)⟩

/-- C5: every entry of the category-difficulty ranking is a category
with at least 10 member channels carrying its true member count and
mean subscriber_count; a category with exactly 9 members never
appears; the ranking is sorted ascending by mean subscriber_count; it
has min 20 k entries where k is the number of qualifying categories;
and every qualifying category left out has mean subscriber_count at
most that of every entry kept, so the kept entries are the (up to) 20
categories with the highest mean subscriber_count. -/
theorem cat_s_spec (rows : List Record) :
    (∀ e ∈ cat_s rows, 10 ≤ e.2.2 ∧ e.2.2 = categoryCount rows e.1
        ∧ e.2.1 = meanSub rows e.1)
    ∧ (∀ c : String, categoryCount rows c = 9 → c ∉ (cat_s rows).map Prod.fst)
    ∧ List.Pairwise (fun a b : String × ℚ × ℕ => a.2.1 ≤ b.2.1) (cat_s rows)
    ∧ (cat_s rows).length = min 20 (keptCategories rows).length
    ∧ (∀ a ∈ keptCategories rows, a ∉ cat_s rows →
        ∀ b ∈ cat_s rows, a.2.1 ≤ b.2.1) := by
  haveI htotal : IsTotal (String × ℚ × ℕ) (fun a b => a.2.1 ≤ b.2.1) :=
    ⟨fun a b => le_total a.2.1 b.2.1⟩
  haveI htrans : IsTrans (String × ℚ × ℕ) (fun a b => a.2.1 ≤ b.2.1) :=
    ⟨fun a b c hab hbc => le_trans hab hbc⟩
  have hperm := List.perm_insertionSort
    (fun a b : String × ℚ × ℕ => a.2.1 ≤ b.2.1) (keptCategories rows)
  have hsorted := List.sorted_insertionSort
    (fun a b : String × ℚ × ℕ => a.2.1 ≤ b.2.1) (keptCategories rows)
  have hcats : cat_s rows
      = (List.insertionSort (fun a b : String × ℚ × ℕ => a.2.1 ≤ b.2.1)
          (keptCategories rows)).drop
        ((List.insertionSort (fun a b : String × ℚ × ℕ => a.2.1 ≤ b.2.1)
          (keptCategories rows)).length - 20) := rfl
  have hkey : ∀ e ∈ cat_s rows, 10 ≤ e.2.2 ∧ e.2.2 = categoryCount rows e.1
      ∧ e.2.1 = meanSub rows e.1 := by
    intro e he
    rw [hcats] at he
    have h1 := List.mem_of_mem_drop he
    have h2 : e ∈ keptCategories rows := hperm.mem_iff.mp h1
    unfold keptCategories at h2
    obtain ⟨h4, h5⟩ := List.mem_filter.mp h2
    have h6 : 10 ≤ e.2.2 := of_decide_eq_true h5
    unfold categoryStats at h4
    obtain ⟨c, _, rfl⟩ := List.mem_map.mp h4
    exact ⟨h6, rfl, rfl⟩
  refine ⟨hkey, ?_, ?_, ?_, ?_⟩
  · intro c hc hmem
    obtain ⟨e, he, hfst⟩ := List.mem_map.mp hmem
    obtain ⟨h10, hcount, _⟩ := hkey e he
    rw [hfst, hc] at hcount
    omega
  · have hp : List.Pairwise (fun a b : String × ℚ × ℕ => a.2.1 ≤ b.2.1)
        (List.insertionSort (fun a b : String × ℚ × ℕ => a.2.1 ≤ b.2.1)
          (keptCategories rows)) := hsorted
    rw [hcats]
    exact hp.sublist (List.drop_sublist _ _)
  · rw [hcats, List.length_drop]
    have hlen := hperm.length_eq
    omega
  · intro a ha hnotin b hb
    have has : a ∈ List.insertionSort
        (fun a b : String × ℚ × ℕ => a.2.1 ≤ b.2.1) (keptCategories rows) :=
      hperm.mem_iff.mpr ha
    have hsplit := List.take_append_drop
      ((List.insertionSort (fun a b : String × ℚ × ℕ => a.2.1 ≤ b.2.1)
        (keptCategories rows)).length - 20)
      (List.insertionSort (fun a b : String × ℚ × ℕ => a.2.1 ≤ b.2.1)
        (keptCategories rows))
    have ha2 := (List.mem_append.mp (hsplit.symm ▸ has))
    have ha3 := ha2.resolve_right (by rw [← hcats]; exact hnotin)
    have hp : List.Pairwise (fun a b : String × ℚ × ℕ => a.2.1 ≤ b.2.1)
        (List.insertionSort (fun a b : String × ℚ × ℕ => a.2.1 ≤ b.2.1)
          (keptCategories rows)) := hsorted
    rw [← hsplit] at hp
    rw [hcats] at hb
    exact (List.pairwise_append.mp hp).2.2 a ha3 b hb

/-- Witness for C5: a table of 9 same-category rows leaves that
category out of the ranking. -/
theorem cat_s_spec_witness :
    categoryCount (List.replicate 9 demoRecord) "Music" = 9
    ∧ "Music" ∉ (cat_s (List.replicate 9 demoRecord)).map Prod.fst :=
  ⟨by decide,
    (cat_s_spec (List.replicate 9 demoRecord)).2.1 "Music" (by decide)⟩

end Dashboard
